import Mathlib

/-!
Verification of the `proposal-refs` repository: a shallow embedding of the
reference (`ref`) semantics described in the proposal README (Reference
values, reference expressions, `ref` declarations, `ref` assignments
(reseating), the temporal-dead-zone rules), together with a model of the
repository build script (`gulpfile.js`): its `exec` promise helper and its
top-level name resolution.

The repository contains no executable implementation of the `ref` feature:
it is a specification proposal.  The semantic operations below are therefore
modelled from the spec prose and the desugarings given in the README
(`__ref`, `__elemRef`, the frozen accessor-pair objects).  The gulpfile
model is translated directly from `src/gulpfile.js`.
-/

namespace Refs

/-- Modelled from the spec: a Reference Value is an accessor pair closing
over one storage location.  The desugaring `__ref(get, set)` freezes the
resulting object, so a Reference is an immutable structure: it carries the
address of the cell it targets and whether it is writable (a
`const ref` expression omits the setter, giving `writable = false`). -/
structure RefVal where
  addr : Nat
  writable : Bool
deriving DecidableEq, Repr

/-- Runtime values of the modelled fragment: numbers, strings, `undefined`,
`null`, Reference values, arrays (a block of consecutive element cells) and
plain objects (a block of consecutive property cells with their keys). -/
inductive Val where
  | num (n : Int)
  | str (s : String)
  | undef
  | null
  | reference (r : RefVal)
  | arr (base : Nat) (len : Nat)
  | obj (base : Nat) (keys : List String)
deriving DecidableEq, Repr

/-- Errors of the modelled fragment, mirroring the spec error taxonomy:
TypeError, ReferenceError and SyntaxError. -/
inductive Err where
  | typeError (msg : String)
  | refError (msg : String)
  | synError (msg : String)
deriving DecidableEq, Repr

/-- A storage cell: its current value and its temporal-dead-zone state
(`ready = false` while the owning `let` declaration has not executed yet). -/
structure Cell where
  val : Val
  ready : Bool
deriving DecidableEq, Repr

/-- Kinds of bindings: `var` (no TDZ), `let` (TDZ) and `ref` declarations
(`let ref` / ref parameter when `isMut = true`, `const ref` when
`isMut = false`). -/
inductive BindKind where
  | varKind
  | letKind
  | refBind (isMut : Bool)
deriving DecidableEq, Repr

/-- A binding: the address of its cell and its kind. -/
structure Binding where
  addr : Nat
  kind : BindKind
deriving DecidableEq, Repr

/-- The machine state: a heap of cells addressed by naturals, the next
fresh address, and the environment mapping names to bindings. -/
structure State where
  heap : Nat → Option Cell
  next : Nat
  env : List (String × Binding)

/-- The empty state. -/
def emptyS : State := ⟨fun _ => none, 0, []⟩

/-- Read the cell at an address. -/
def heapGet (s : State) (a : Nat) : Option Cell := s.heap a

/-- Overwrite the cell at an address. -/
def heapSet (s : State) (a : Nat) (c : Cell) : State :=
  { s with heap := fun a' => if a' = a then some c else s.heap a' }

/-- Allocate a fresh cell, returning the new state and the fresh address. -/
def allocCell (s : State) (c : Cell) : State × Nat :=
  (⟨fun a' => if a' = s.next then some c else s.heap a', s.next + 1, s.env⟩, s.next)

/-- Resolve a name to its innermost binding. -/
def lookupBinding (s : State) (x : String) : Option Binding :=
  (s.env.find? (fun p => p.1 == x)).map (fun p => p.2)

/-- Install a new binding of the given kind over a freshly allocated cell. -/
def bindCell (s : State) (x : String) (k : BindKind) (c : Cell) : State :=
  let p := allocCell s c
  { p.1 with env := (x, ⟨p.2, k⟩) :: p.1.env }

/-- Execute `let x = v` (hoisting and initialization together). -/
def declLet (s : State) (x : String) (v : Val) : State :=
  bindCell s x .letKind ⟨v, true⟩

/-- Hoist `let x` without executing its initializer: the cell is in its
temporal dead zone. -/
def hoistLet (s : State) (x : String) : State :=
  bindCell s x .letKind ⟨.undef, false⟩

/-- Hoist `var x`: the cell holds `undefined` and has no TDZ. -/
def hoistVar (s : State) (x : String) : State :=
  bindCell s x .varKind ⟨.undef, true⟩

/-- Execute the declaration of an already-hoisted `let x = v`: the cell
leaves its temporal dead zone. -/
def initLet (s : State) (x : String) (v : Val) : Except Err State :=
  match lookupBinding s x with
  | some b => .ok (heapSet s b.addr ⟨v, true⟩)
  | none => .error (.refError (x ++ " is not defined"))

/-- Allocate one ready cell per value (the element cells of an array). -/
def allocList (s : State) (vs : List Val) : State :=
  vs.foldl (fun t v => (allocCell t ⟨v, true⟩).1) s

/-- Execute `let x = [v0, ..., vn]`: allocate the element cells, then bind
`x` to the array value. -/
def declArr (s : State) (x : String) (vs : List Val) : State :=
  declLet (allocList s vs) x (.arr s.next vs.length)

/-- Modelled from the spec: reading through a Reference invokes its `get`
accessor, which reads the target cell directly; a cell still in its
temporal dead zone raises a ReferenceError (TDZ checker, spec section 4.3).
No expression is re-evaluated: the Reference already closed over the
resolved address at creation time. -/
def derefRead (s : State) (r : RefVal) : Except Err Val :=
  match heapGet s r.addr with
  | some c =>
      if c.ready then .ok c.val
      else .error (.refError "Cannot access before initialization")
  | none => .error (.refError "invalid reference target")

/-- Modelled from the spec: writing through a Reference invokes its `set`
accessor.  A `const ref` Reference has no setter, so the write fails with a
TypeError; a target still in its temporal dead zone raises a
ReferenceError.  On failure no new state is produced: the heap is
untouched. -/
def derefWrite (s : State) (r : RefVal) (v : Val) : Except Err State :=
  if r.writable then
    match heapGet s r.addr with
    | some c =>
        if c.ready then .ok (heapSet s r.addr ⟨v, true⟩)
        else .error (.refError "Cannot access before initialization")
    | none => .error (.refError "invalid reference target")
  else .error (.typeError "Cannot assign to read only reference")

/-- Modelled from the spec: `ref x` / `const ref x` on an identifier.  For a
plain binding the Reference closes over the binding cell itself; this is
allowed even inside the TDZ (forward reference construction is permitted).
For a `ref`-declared binding the Reference points at the same underlying
location as the binding target (aliasing is transitive); taking a mutable
reference to a `const ref` binding is an error, and taking a reference of a
binding whose target is `undefined`/`null` yields `undefined`. -/
def refOfIdent (s : State) (x : String) (writable : Bool) : Except Err Val :=
  match lookupBinding s x with
  | none => .error (.refError (x ++ " is not defined"))
  | some b =>
    match b.kind with
    | .varKind => .ok (.reference ⟨b.addr, writable⟩)
    | .letKind => .ok (.reference ⟨b.addr, writable⟩)
    | .refBind m =>
      if writable && !m then
        .error (.typeError "Cannot take a mutable Reference to an immutable binding")
      else
        match heapGet s b.addr with
        | none => .error (.refError "invalid binding")
        | some c =>
          match c.val with
          | .reference r => .ok (.reference ⟨r.addr, writable⟩)
          | .undef => .ok .undef
          | .null => .ok .undef
          | _ => .error (.typeError "corrupt ref binding")

/-- Modelled from the spec (desugaring `__elemRef`): given the already
evaluated receiver and key of `ref a[k]`, create a Reference over the
element cell.  The receiver and key are plain values here: their evaluation
(and any side effect of it) happened before this call, exactly once. -/
def mkElemRef (recv : Val) (key : Val) (w : Bool) : Except Err Val :=
  match recv, key with
  | .arr base len, .num k =>
      if 0 ≤ k ∧ k < (len : Int) then .ok (.reference ⟨base + k.toNat, w⟩)
      else .error (.refError "index out of bounds of modelled fragment")
  | .arr _ _, _ => .error (.typeError "unsupported key in modelled fragment")
  | .undef, _ => .error (.typeError "Cannot read properties of undefined")
  | .null, _ => .error (.typeError "Cannot read properties of null")
  | _, _ => .error (.typeError "unsupported receiver in modelled fragment")

/-- Modelled from the spec: given the already evaluated receiver of
`ref a.p`, create a Reference over the property cell. -/
def mkPropRef (recv : Val) (p : String) (w : Bool) : Except Err Val :=
  match recv with
  | .obj base keys =>
      match keys.findIdx? (fun q => q == p) with
      | some i => .ok (.reference ⟨base + i, w⟩)
      | none => .error (.typeError "property not present in modelled fragment")
  | .undef => .error (.typeError "Cannot read properties of undefined")
  | .null => .error (.typeError "Cannot read properties of null")
  | _ => .error (.typeError "unsupported receiver in modelled fragment")

/-- Modelled from the spec: a `ref` declaration (`let ref x = v`,
`const ref x = v`, or a `ref` / `const ref` parameter) dereferences its
initializer `v`.  A mutable Reference installs the binding; dereferencing
an immutable Reference into a mutable binding is an error; `undefined` and
`null` install the binding successfully; anything else is a TypeError
("Value is not a Reference"). -/
def refDeclInit (s : State) (x : String) (isMut : Bool) (v : Val) : Except Err State :=
  match v with
  | .reference r =>
      if isMut && !r.writable then
        .error (.typeError "Cannot dereference an immutable Reference into a mutable binding")
      else .ok (bindCell s x (.refBind isMut) ⟨.reference r, true⟩)
  | .undef => .ok (bindCell s x (.refBind isMut) ⟨.undef, true⟩)
  | .null => .ok (bindCell s x (.refBind isMut) ⟨.null, true⟩)
  | _ => .error (.typeError "Value is not a Reference")

/-- Modelled from the spec: reading an identifier.  A plain binding reads
its cell, subject to the TDZ check; a `ref`-declared binding proxies the
read through its target Reference, and reading a binding whose target is
`undefined`/`null` is a ReferenceError. -/
def readBinding (s : State) (x : String) : Except Err Val :=
  match lookupBinding s x with
  | none => .error (.refError (x ++ " is not defined"))
  | some b =>
    match heapGet s b.addr with
    | none => .error (.refError "invalid binding")
    | some c =>
      match b.kind with
      | .refBind _ =>
        match c.val with
        | .reference r => derefRead s r
        | .undef => .error (.refError (x ++ " is not defined"))
        | .null => .error (.refError (x ++ " is not defined"))
        | _ => .error (.typeError "corrupt ref binding")
      | .letKind =>
          if c.ready then .ok c.val
          else .error (.refError "Cannot access before initialization")
      | .varKind => .ok c.val

/-- Modelled from the spec: assigning to an identifier.  Assignment through
a `const ref` binding is a TypeError; a mutable `ref` binding proxies the
write through its target Reference; a plain `let` binding is subject to the
TDZ check.  On failure no new state is produced: no location changes. -/
def writeBinding (s : State) (x : String) (v : Val) : Except Err State :=
  match lookupBinding s x with
  | none => .error (.refError (x ++ " is not defined"))
  | some b =>
    match b.kind with
    | .refBind false => .error (.typeError "Assignment to constant variable")
    | .refBind true =>
      match heapGet s b.addr with
      | none => .error (.refError "invalid binding")
      | some c =>
        match c.val with
        | .reference r => derefWrite s r v
        | .undef => .error (.refError (x ++ " is not defined"))
        | .null => .error (.refError (x ++ " is not defined"))
        | _ => .error (.typeError "corrupt ref binding")
    | .letKind =>
      match heapGet s b.addr with
      | none => .error (.refError "invalid binding")
      | some c =>
          if c.ready then .ok (heapSet s b.addr ⟨v, true⟩)
          else .error (.refError "Cannot access before initialization")
    | .varKind => .ok (heapSet s b.addr ⟨v, true⟩)

/-- The string produced by the `typeof` operator on a value. -/
def typeofVal : Val → String
  | .num _ => "number"
  | .str _ => "string"
  | .undef => "undefined"
  | .null => "object"
  | .reference _ => "object"
  | .arr _ _ => "object"
  | .obj _ _ => "object"

/-- Modelled from the spec: `typeof x`.  On a `ref`-declared binding whose
target is `undefined`/`null` it succeeds and yields "undefined"; otherwise
it reports the type of the dereferenced value. -/
def typeofBinding (s : State) (x : String) : Except Err String :=
  match lookupBinding s x with
  | none => .ok "undefined"
  | some b =>
    match heapGet s b.addr with
    | none => .error (.refError "invalid binding")
    | some c =>
      match b.kind with
      | .refBind _ =>
        match c.val with
        | .reference r => (derefRead s r).map typeofVal
        | .undef => .ok "undefined"
        | .null => .ok "undefined"
        | _ => .error (.typeError "corrupt ref binding")
      | .letKind =>
          if c.ready then .ok (typeofVal c.val)
          else .error (.refError "Cannot access before initialization")
      | .varKind => .ok (typeofVal c.val)

/-- Modelled from the spec (ref assignments): `ref x = v` reseats a mutable
`ref`-declared binding: it replaces which Reference the binding points at,
touching only the binding cell itself, never the previously referenced
location.  The value must be a mutable Reference, `undefined` or `null`; an
immutable Reference is a TypeError; a non-`ref` binding is a SyntaxError. -/
def refAssign (s : State) (x : String) (v : Val) : Except Err State :=
  match lookupBinding s x with
  | none => .error (.refError (x ++ " is not defined"))
  | some b =>
    match b.kind with
    | .refBind true =>
      match v with
      | .reference r =>
          if r.writable then .ok (heapSet s b.addr ⟨.reference r, true⟩)
          else .error (.typeError "Cannot reseat with an immutable Reference")
      | .undef => .ok (heapSet s b.addr ⟨.undef, true⟩)
      | .null => .ok (heapSet s b.addr ⟨.null, true⟩)
      | _ => .error (.typeError "Value is not a Reference")
    | _ => .error (.synError "ref assignment target is not a mutable ref declaration")

/-- Modelled from the spec: `ref a.p` evaluates its receiver immediately (a
read of the identifier, subject to the TDZ check) and then creates the
property Reference.  On a TDZ-guarded receiver this fails at
reference-creation time. -/
def refOfProp (s : State) (recvName : String) (p : String) (w : Bool) : Except Err Val :=
  match readBinding s recvName with
  | .ok recv => mkPropRef recv p w
  | .error e => .error e

/-- Successor on a numeric value (the `++` update step). -/
def numSucc : Val → Val
  | .num n => .num (n + 1)
  | v => v

end Refs

namespace Gulpfile

/-- Top-level names in scope in `gulpfile.js`: the four `require` results
(`gulp`, `emu`, `gls`, `spawn`), the two hoisted function declarations
(`git`, `exec`), and the Node module-scope globals the file could rely on.
Neither `del` nor `gutil` is required or declared anywhere in the file. -/
def definedNames : List String :=
  ["gulp", "emu", "gls", "spawn", "git", "exec",
   "require", "process", "Promise", "Error", "console"]

/-- Whether a free identifier of `gulpfile.js` resolves. -/
def resolves (x : String) : Bool := definedNames.contains x

/-- Outcome of invoking a gulp task callback. -/
inductive TaskOutcome where
  | ok
  | thrown (msg : String)
deriving DecidableEq, Repr

/-- The `clean` task callback, `() => del("out/**/*")`: evaluating the free
identifier `del` either resolves or throws a ReferenceError. -/
def cleanTask : TaskOutcome :=
  if resolves "del" then .ok else .thrown "ReferenceError: del is not defined"

/-- An event of the spawned child process: either the `error` event (with
the error payload) or the `close` event with an exit code. -/
inductive ProcEvent where
  | errored (e : String)
  | closed (code : Nat)
deriving DecidableEq, Repr

/-- How the promise returned by `exec` settles. -/
inductive Settle where
  | resolved
  | rejected (reason : String)
deriving DecidableEq, Repr

/-- The settle logic of `exec`: translation of its two event handlers.
The `error` handler is `function (e) { reject(e); }`; the `close` handler
is `function (code) { code ? reject(new Error(...)) : resolve(); }`, so a
zero exit code (falsy) resolves and any nonzero exit code rejects. -/
def settle : ProcEvent → Settle
  | .errored e => .rejected e
  | .closed code =>
      if code ≠ 0 then .rejected ("Process exited with code: " ++ toString code)
      else .resolved

/-- Result of one run of `exec`: whether the subprocess was spawned, and
how the returned promise settles. -/
structure ExecRun where
  spawned : Bool
  result : Settle
deriving DecidableEq, Repr

/-- The body of `exec(cmd, args)` inside the Promise executor, parametrized
by whether the free identifier `gutil` resolves: the first statement is
`gutil.log(...)`; if `gutil` does not resolve, the executor throws a
ReferenceError there, which the Promise machinery turns into a rejection,
and `spawn` is never reached.  Otherwise the process is spawned and the
promise settles according to the process event. -/
def execWith (gutilOk : Bool) (ev : ProcEvent) : ExecRun :=
  if gutilOk then ⟨true, settle ev⟩
  else ⟨false, .rejected "ReferenceError: gutil is not defined"⟩

/-- One run of `exec` as written in `gulpfile.js`, where `gutil` resolves
only if it is among the names actually defined in the module. -/
def exec (ev : ProcEvent) : ExecRun := execWith (resolves "gutil") ev

end Gulpfile

namespace Refs

/-- Concrete state for the read-after-write example: `let x = 1`. -/
def c1s0 : State := declLet emptyS "x" (.num 1)

/-- State after `(ref x).value = 2` in `c1s0`. -/
def c1s1 : State := heapSet c1s0 0 ⟨.num 2, true⟩

/-- Concrete state for the side-effects example, step 1: `let c = 0`. -/
def c2s1 : State := declLet emptyS "c" (.num 0)

/-- Step 2: `let e = [0, 1, 2]`. -/
def c2s2 : State := declArr c2s1 "e" [.num 0, .num 1, .num 2]

/-- The rest of the side-effects example: evaluate `ref e[c++]` (receiver
and key evaluated exactly once, left to right, at reference-creation time),
bind `let ref r` to the resulting Reference, read `r` twice, then read `c`.
Returns the two reads of `r` and the final value of `c`. -/
def c2run : Except Err (Val × Val × Val) := do
  let recv ← readBinding c2s2 "e"
  let k ← readBinding c2s2 "c"
  let s3 ← writeBinding c2s2 "c" (numSucc k)
  let rv ← mkElemRef recv k true
  let s4 ← refDeclInit s3 "r" true rv
  let v1 ← readBinding s4 "r"
  let v2 ← readBinding s4 "r"
  let cF ← readBinding s4 "c"
  pure (v1, v2, cF)

/-- Concrete base state for the reseating example: `let a0 = 1; let b0 = 2`. -/
def c3sA : State := declLet (declLet emptyS "a0" (.num 1)) "b0" (.num 2)

/-- After `let ref w = ref a0` (the binding cell of `w` is at address 2). -/
def c3s0 : State := bindCell c3sA "w" (.refBind true) ⟨.reference ⟨0, true⟩, true⟩

/-- After the reseating assignment `ref w = ref b0`. -/
def c3s1 : State := heapSet c3s0 2 ⟨.reference ⟨1, true⟩, true⟩

/-- Concrete state with a `const ref` binding `k` over the cell of `a0`. -/
def c7s0 : State :=
  bindCell (declLet emptyS "a0" (.num 1)) "k" (.refBind false) ⟨.reference ⟨0, true⟩, true⟩

end Refs

open Refs Gulpfile

/-- Reading a cell of a state updated by `heapSet` returns the new cell at
the written address and the old cell elsewhere. -/
theorem heapGet_heapSet (s : State) (a : Nat) (c : Cell) (a' : Nat) :
    heapGet (heapSet s a c) a' = if a' = a then some c else heapGet s a' := rfl

/-- Heap writes do not change the environment. -/
theorem lookupBinding_heapSet (s : State) (a : Nat) (c : Cell) (x : String) :
    lookupBinding (heapSet s a c) x = lookupBinding s x := rfl

/-- Looking up the name just installed by `bindCell` yields the fresh
binding. -/
theorem lookupBinding_bindCell_self (s : State) (y : String) (k : BindKind) (c : Cell) :
    lookupBinding (bindCell s y k c) y = some ⟨s.next, k⟩ := by
  unfold lookupBinding bindCell allocCell
  rw [List.find?_cons_of_pos _ (by simp)]
  rfl

/-- The fresh cell installed by `bindCell` is readable at the fresh
address. -/
theorem heapGet_bindCell_self (s : State) (y : String) (k : BindKind) (c : Cell) :
    heapGet (bindCell s y k c) s.next = some c := by
  simp [heapGet, bindCell, allocCell]

/-- Reading any address of a state extended by `bindCell` sees the fresh
cell at the fresh address and the old heap elsewhere. -/
theorem heapGet_bindCell (s : State) (y : String) (k : BindKind) (c : Cell) (a : Nat) :
    heapGet (bindCell s y k c) a = if a = s.next then some c else heapGet s a := rfl

/-- `bindCell` advances the allocation counter by one. -/
theorem bindCell_next (s : State) (y : String) (k : BindKind) (c : Cell) :
    (bindCell s y k c).next = s.next + 1 := rfl

/-- Characterization of a successful write through a Reference. -/
theorem derefWrite_ok (s : State) (r : RefVal) (v : Val) (s' : State)
    (h : derefWrite s r v = .ok s') :
    r.writable = true ∧ ∃ c, heapGet s r.addr = some c ∧ c.ready = true ∧
      s' = heapSet s r.addr ⟨v, true⟩ := by
  unfold derefWrite at h
  cases hw : r.writable with
  | false => simp [hw] at h
  | true =>
    simp only [hw, if_true] at h
    cases hg : heapGet s r.addr with
    | none => simp [hg] at h
    | some c =>
      simp only [hg] at h
      cases hc : c.ready with
      | false => simp [hc] at h
      | true =>
        simp only [hc, if_true] at h
        cases h
        exact ⟨rfl, c, rfl, hc, rfl⟩

/-- Characterization of a successful reseating with a Reference value. -/
theorem refAssign_ref_ok (s : State) (x : String) (r : RefVal) (s₁ : State)
    (h : refAssign s x (.reference r) = .ok s₁) :
    ∃ b, lookupBinding s x = some b ∧ b.kind = .refBind true ∧
      r.writable = true ∧ s₁ = heapSet s b.addr ⟨.reference r, true⟩ := by
  unfold refAssign at h
  cases hb : lookupBinding s x with
  | none => simp [hb] at h
  | some b =>
    simp only [hb] at h
    obtain ⟨a, k⟩ := b
    cases k with
    | varKind => simp at h
    | letKind => simp at h
    | refBind m =>
      cases m with
      | false => simp at h
      | true =>
        cases hw : r.writable with
        | false => simp [hw] at h
        | true =>
          simp only [hw, if_true] at h
          cases h
          exact ⟨⟨a, .refBind true⟩, rfl, rfl, rfl, rfl⟩

/-- C1: for an identifier binding `x` (a plain `let` or `var` binding),
evaluating `ref x` to a Reference `r`, performing `r.value = v`, and then
reading `x` directly yields `v`: the Reference and the original binding
alias the same storage location (read-after-write through the alias). -/
theorem claim_C1 : ∀ (s : State) (x : String) (v : Val) (b : Binding),
    lookupBinding s x = some b → (b.kind = .letKind ∨ b.kind = .varKind) →
    ∀ (r : RefVal) (s' : State),
    refOfIdent s x true = .ok (.reference r) →
    derefWrite s r v = .ok s' →
    readBinding s' x = .ok v := by
  intro s x v b hb hk r s' hr hw
  obtain ⟨hwrit, c, hc, hcr, rfl⟩ := derefWrite_ok s r v s' hw
  have hr' : r = ⟨b.addr, true⟩ := by
    rcases hk with hk | hk <;> simp [refOfIdent, hb, hk] at hr <;> exact hr.symm
  subst hr'
  rcases hk with hk | hk <;>
    simp [readBinding, lookupBinding_heapSet, hb, hk, heapGet_heapSet]

/-- Witness for C1 at the spec example `let x = 1; const r = ref x;
r.value = 2;`: reading `x` afterwards yields `2`. -/
theorem claim_C1_witness : readBinding c1s1 "x" = .ok (.num 2) :=
  claim_C1 c1s0 "x" (.num 2) ⟨0, .letKind⟩ rfl (Or.inl rfl) ⟨0, true⟩ c1s1 rfl rfl

/-- C2: in `let c = 0; let e = [0, 1, 2]; let ref r = ref e[c++]; r; r;`
the receiver and key of the bracket accessor are evaluated exactly once,
left to right, at reference-creation time; both subsequent reads of `r`
yield `0` and the final value of `c` is `1`. -/
theorem claim_C2 : c2run = .ok (.num 0, .num 0, .num 1) := by rfl

/-- C3: a reseating assignment `ref x = r` on a mutable `ref`-declared
binding makes all subsequent reads and writes of `x` go to the target of
`r`, changes no heap cell other than the binding cell of `x` itself (in
particular the previously referenced location is untouched), and reseating
with an immutable Reference fails with a TypeError. -/
theorem claim_C3 :
    (∀ (s : State) (x : String) (r : RefVal) (s₁ : State),
      refAssign s x (.reference r) = .ok s₁ →
      readBinding s₁ x = derefRead s₁ r ∧
      (∀ v, writeBinding s₁ x v = derefWrite s₁ r v) ∧
      ∀ b, lookupBinding s x = some b → ∀ a, a ≠ b.addr →
        heapGet s₁ a = heapGet s a) ∧
    (∀ (s : State) (x : String) (b : Binding) (r : RefVal),
      lookupBinding s x = some b → b.kind = .refBind true → r.writable = false →
      refAssign s x (.reference r) =
        .error (.typeError "Cannot reseat with an immutable Reference")) := by
  constructor
  · intro s x r s₁ h
    obtain ⟨b, hb, hk, hw, rfl⟩ := refAssign_ref_ok s x r s₁ h
    refine ⟨?_, ?_, ?_⟩
    · simp [readBinding, lookupBinding_heapSet, hb, hk, heapGet_heapSet]
    · intro v
      simp [writeBinding, lookupBinding_heapSet, hb, hk, heapGet_heapSet]
    · intro b' hb' a ha
      rw [hb] at hb'
      injection hb' with hb''
      subst hb''
      simp [heapGet_heapSet, ha]
  · intro s x b r hb hk hw
    unfold refAssign
    rw [hb]
    simp [hk, hw]

/-- Witness for C3: `let a0 = 1; let b0 = 2; let ref w = ref a0;
ref w = ref b0;` — afterwards reads and writes of `w` go through
`ref b0`, the cell of `a0` (address 0) is untouched, and reseating with an
immutable Reference is a TypeError. -/
theorem claim_C3_witness :
    (readBinding c3s1 "w" = derefRead c3s1 ⟨1, true⟩ ∧
     writeBinding c3s1 "w" (.num 7) = derefWrite c3s1 ⟨1, true⟩ (.num 7) ∧
     heapGet c3s1 0 = heapGet c3s0 0) ∧
    refAssign c3s0 "w" (.reference ⟨0, false⟩) =
      .error (.typeError "Cannot reseat with an immutable Reference") := by
  constructor
  · obtain ⟨h1, h2, h3⟩ := claim_C3.1 c3s0 "w" ⟨1, true⟩ c3s1 rfl
    exact ⟨h1, h2 (.num 7), h3 ⟨2, .refBind true⟩ rfl 0 (by decide)⟩
  · exact claim_C3.2 c3s0 "w" ⟨2, .refBind true⟩ ⟨0, false⟩ rfl rfl rfl

/-- C4: for every state and every block-scoped binding `x` that is hoisted
but whose declaration has not executed yet (its cell is in the TDZ),
constructing `ref x` succeeds; any dereference before the declaration
executes — directly via `.value` (read or write) or via a `ref`-declared
binding `y` installed over that Reference — fails with a ReferenceError;
constructing `ref x.p` (property access on the TDZ-guarded identifier)
fails immediately at reference-creation time.  A `var`-declared binding is
exempt: its forward reference is fully usable (readable and writable)
before any assignment executes.  (`letKind` models both plain `let` and
plain `const` block-scoped targets: their TDZ behavior is identical.) -/
theorem claim_C4 : ∀ (s : State) (x y p : String) (v : Val),
    refOfIdent (hoistLet s x) x true = .ok (.reference ⟨s.next, true⟩) ∧
    derefRead (hoistLet s x) ⟨s.next, true⟩ =
      .error (.refError "Cannot access before initialization") ∧
    derefWrite (hoistLet s x) ⟨s.next, true⟩ v =
      .error (.refError "Cannot access before initialization") ∧
    refDeclInit (hoistLet s x) y true (.reference ⟨s.next, true⟩) =
      .ok (bindCell (hoistLet s x) y (.refBind true)
        ⟨.reference ⟨s.next, true⟩, true⟩) ∧
    readBinding (bindCell (hoistLet s x) y (.refBind true)
        ⟨.reference ⟨s.next, true⟩, true⟩) y =
      .error (.refError "Cannot access before initialization") ∧
    writeBinding (bindCell (hoistLet s x) y (.refBind true)
        ⟨.reference ⟨s.next, true⟩, true⟩) y v =
      .error (.refError "Cannot access before initialization") ∧
    refOfProp (hoistLet s x) x p true =
      .error (.refError "Cannot access before initialization") ∧
    refOfIdent (hoistVar s x) x true = .ok (.reference ⟨s.next, true⟩) ∧
    derefRead (hoistVar s x) ⟨s.next, true⟩ = .ok .undef ∧
    derefWrite (hoistVar s x) ⟨s.next, true⟩ v =
      .ok (heapSet (hoistVar s x) s.next ⟨v, true⟩) ∧
    readBinding (heapSet (hoistVar s x) s.next ⟨v, true⟩) x = .ok v := by
  intro s x y p v
  refine ⟨?_, ?_, ?_, ?_, ?_, ?_, ?_, ?_, ?_, ?_, ?_⟩ <;>
    simp [refOfIdent, derefRead, derefWrite, readBinding, writeBinding,
      refOfProp, refDeclInit, hoistLet, hoistVar, lookupBinding_bindCell_self,
      heapGet_bindCell_self, heapGet_bindCell, bindCell_next,
      lookupBinding_heapSet, heapGet_heapSet, Nat.succ_ne_self]

/-- C5: initializing a `ref` declaration (the same operation models a `ref`
parameter) with `undefined` or `null` succeeds in installing the binding,
every subsequent read of the binding fails with a ReferenceError, and
`typeof` on the binding succeeds and yields "undefined". -/
theorem claim_C5 : ∀ (s : State) (y : String) (m : Bool),
    (∃ s', refDeclInit s y m .undef = .ok s' ∧
      readBinding s' y = .error (.refError (y ++ " is not defined")) ∧
      typeofBinding s' y = .ok "undefined") ∧
    (∃ s', refDeclInit s y m .null = .ok s' ∧
      readBinding s' y = .error (.refError (y ++ " is not defined")) ∧
      typeofBinding s' y = .ok "undefined") := by
  intro s y m
  refine ⟨⟨_, rfl, ?_, ?_⟩, ⟨_, rfl, ?_, ?_⟩⟩ <;>
    simp [readBinding, typeofBinding, lookupBinding_bindCell_self,
      heapGet_bindCell_self]

/-- C6: initializing a `ref` declaration with a value that is neither a
Reference nor `undefined`/`null` fails with a TypeError ("Value is not a
Reference") at the point of binding initialization. -/
theorem claim_C6 : ∀ (s : State) (x : String) (m : Bool) (v : Val),
    (∀ r, v ≠ .reference r) → v ≠ .undef → v ≠ .null →
    refDeclInit s x m v = .error (.typeError "Value is not a Reference") := by
  intro s x m v h1 h2 h3
  cases v <;> simp_all [refDeclInit]

/-- Witness for C6 at the spec example `let x = 1; let ref y = x;`. -/
theorem claim_C6_witness :
    refDeclInit c1s0 "y" true (.num 1) =
      .error (.typeError "Value is not a Reference") :=
  claim_C6 c1s0 "y" true (.num 1)
    (fun _ h => Val.noConfusion h) (fun h => Val.noConfusion h)
    (fun h => Val.noConfusion h)

/-- C7: a write through a `const ref` binding fails with a TypeError, and a
write through a `const`-qualified (non-writable) Reference fails with a
TypeError; in both cases the operation produces no new state, so the value
in the underlying location is unchanged by the failed write. -/
theorem claim_C7 :
    (∀ (s : State) (x : String) (b : Binding),
      lookupBinding s x = some b → b.kind = .refBind false →
      ∀ v, writeBinding s x v =
        .error (.typeError "Assignment to constant variable")) ∧
    (∀ (s : State) (r : RefVal), r.writable = false →
      ∀ v, derefWrite s r v =
        .error (.typeError "Cannot assign to read only reference")) := by
  constructor
  · intro s x b hb hk v
    simp [writeBinding, hb, hk]
  · intro s r hw v
    simp [derefWrite, hw]

/-- Witness for C7 at the concrete state with `const ref k` over the cell
of `a0`. -/
theorem claim_C7_witness :
    writeBinding c7s0 "k" (.num 9) =
      .error (.typeError "Assignment to constant variable") ∧
    derefWrite c7s0 ⟨0, false⟩ (.num 9) =
      .error (.typeError "Cannot assign to read only reference") :=
  ⟨claim_C7.1 c7s0 "k" ⟨1, .refBind false⟩ rfl rfl (.num 9),
   claim_C7.2 c7s0 ⟨0, false⟩ rfl (.num 9)⟩

/-- C8: a Reference Value is permanently bound to its storage location: its
read accessor depends only on the cell at its fixed address, and a
successful write through it updates exactly that cell and no other.  The
Reference itself is an immutable structure (the desugaring freezes it), so
no operation re-targets it. -/
theorem claim_C8 :
    (∀ (s₁ s₂ : State) (r : RefVal),
      heapGet s₁ r.addr = heapGet s₂ r.addr → derefRead s₁ r = derefRead s₂ r) ∧
    (∀ (s : State) (r : RefVal) (v : Val) (s' : State),
      derefWrite s r v = .ok s' →
      heapGet s' r.addr = some ⟨v, true⟩ ∧
      ∀ a, a ≠ r.addr → heapGet s' a = heapGet s a) := by
  constructor
  · intro s₁ s₂ r h
    unfold derefRead
    rw [h]
  · intro s r v s' h
    obtain ⟨hw, c, hc, hcr, rfl⟩ := derefWrite_ok s r v s' h
    exact ⟨by simp [heapGet_heapSet], fun a ha => by simp [heapGet_heapSet, ha]⟩

/-- Witness for C8: the read accessor of the Reference at address 0 is
unaffected by unrelated state growth, and the write `r.value = 2` updates
exactly cell 0. -/
theorem claim_C8_witness :
    derefRead c1s0 ⟨0, true⟩ = derefRead (hoistVar c1s0 "zz") ⟨0, true⟩ ∧
    heapGet c1s1 0 = some ⟨.num 2, true⟩ ∧
    heapGet c1s1 1 = heapGet c1s0 1 := by
  refine ⟨claim_C8.1 c1s0 (hoistVar c1s0 "zz") ⟨0, true⟩ rfl, ?_, ?_⟩
  · exact (claim_C8.2 c1s0 ⟨0, true⟩ (.num 2) c1s1 rfl).1
  · exact (claim_C8.2 c1s0 ⟨0, true⟩ (.num 2) c1s1 rfl).2 1 (by decide)

/-- C9: the settle logic of the build script helper `exec` propagates the
subprocess outcome and nothing more: once the process is spawned, the
returned promise resolves exactly when the process closes with exit code 0,
and rejects — with no retry or recovery — when the process emits an error
or closes with any nonzero exit code. -/
theorem claim_C9 : ∀ (e : String) (c : Nat),
    ((execWith true (.closed c)).result = .resolved ↔ c = 0) ∧
    (execWith true (.errored e)).result = .rejected e := by
  intro e c
  constructor
  · by_cases hc : c = 0 <;> simp [execWith, settle, hc]
  · rfl

/-- C10: `gulpfile.js` never defines or imports `del` or `gutil`: invoking
the clean task throws a ReferenceError, and every run of `exec` (hence the
`git` helper and the whole update-pages pipeline) hits the ReferenceError
at the `gutil.log` call, so its promise rejects before any subprocess is
spawned. -/
theorem claim_C10 :
    resolves "del" = false ∧
    resolves "gutil" = false ∧
    cleanTask = .thrown "ReferenceError: del is not defined" ∧
    ∀ ev, (Gulpfile.exec ev).spawned = false ∧
      (Gulpfile.exec ev).result =
        .rejected "ReferenceError: gutil is not defined" := by
  refine ⟨rfl, rfl, rfl, ?_⟩
  intro ev
  exact ⟨rfl, rfl⟩
